import Mathlib

/-!
Shallow embedding of `process_excel_workflow`
(src/excel_workflow_script_v2.py) and proofs about the claims of the
natural-language specification.

Modelling conventions:
* a CSV cell that pandas would read as NaN is `none`;
* numeric cells are rationals; `Series.round(2)` is represented by the
  integer number of hundredths (`round2Cents`), which determines the
  rounded value uniquely, so equality / min / max of rounded values are
  compared on these integers;
* a data frame is a list of typed rows together with the list of column
  names actually present in the file (column presence is what the script
  tests with `in raw_data.columns`);
* `pd.merge(..., how='left')` is one output row per matching right row,
  or a single row with `none` fields when there is no match;
* `sort_values` is modelled by a stable insertion sort; the claims under
  study are invariant under the tie-breaking order;
* the overall run is `RunResult`: `crash` when an uncaught exception
  escapes the function (e.g. a KeyError from indexing an absent column,
  or `pd.concat` of an empty list), `aborted` for the explicit
  `return None, None` after the mapping-column check, `ok` otherwise.
-/

/-- Whitespace test used for `str.strip` of column names. -/
def isWsChar (c : Char) : Bool := c == ' ' || c == '\t' || c == '\n' || c == '\r'

/-- Model of Python `str.strip()`. -/
def stripStr (s : String) : String :=
  (((s.toList.dropWhile isWsChar).reverse.dropWhile isWsChar).reverse).asString

/-- ASCII upper-casing of a character, as Python `str.upper()` does on the
family-status words appearing here. -/
def upChar (c : Char) : Char :=
  if 'a' ≤ c && c ≤ 'z' then Char.ofNat (c.toNat - 32) else c

/-- Model of Python `str.upper()`. -/
def upStr (s : String) : String := (s.toList.map upChar).asString

/-- Model of `str.replace(r'\d+$', '', regex=True)`: remove the maximal
trailing run of digits. -/
def dropTrailingDigits (s : String) : String :=
  ((s.toList.reverse.dropWhile Char.isDigit).reverse).asString

/-- The maximal trailing run of digits of a string, as a string. -/
def trailingDigits (s : String) : String :=
  ((s.toList.reverse.takeWhile Char.isDigit).reverse).asString

/-- Model of `extract_children_count` (lines 189-192): the trailing digit
run, or "0" when there is none. -/
def extract_children_count (s : String) : String :=
  if trailingDigits s = "" then "0" else trailingDigits s

/-- Number of hundredths of the value rounded to 2 decimal places:
`round2Cents q = floor (100 * q + 1/2)`, computed on numerator and
denominator so that it evaluates by kernel reduction.  This represents
`Series.round(2)` (the claims do not depend on the tie-breaking mode of
the rounding). -/
def round2Cents (q : ℚ) : ℤ := Int.fdiv (200 * q.num + (q.den : ℤ)) (2 * (q.den : ℤ))

/-- Code-point comparison of character lists (Python string `<`). -/
def charListLt : List Char → List Char → Bool
  | [], [] => false
  | [], _ :: _ => true
  | _ :: _, [] => false
  | a :: as, b :: bs => if a < b then true else if b < a then false else charListLt as bs

/-- Python string strict comparison. -/
def strLt (a b : String) : Bool := charListLt a.toList b.toList

/-- Stable insertion into a list sorted by `le`. -/
def insertLe (le : α → α → Bool) (a : α) : List α → List α
  | [] => [a]
  | b :: bs => if le a b then a :: b :: bs else b :: insertLe le a bs

/-- Stable sort by the boolean comparison `le`; models `sort_values`
(the claims under study do not depend on the order of ties). -/
def sortByLe (le : α → α → Bool) : List α → List α
  | [] => []
  | a :: as => insertLe le a (sortByLe le as)

/-- One row of the raw-data CSV.  The twelve value columns of the file are
typed fields; whether a column is present in the file is recorded
separately in `RawTable.cols`. -/
structure RawRow where
  country : String
  region : Option String
  currency : String
  grossFrom : Option ℚ
  grossTo : Option ℚ
  single : Option ℚ
  married : Option ℚ
  married1 : Option ℚ
  married2 : Option ℚ
  married3 : Option ℚ
  married4 : Option ℚ
  married5 : Option ℚ
deriving DecidableEq

/-- The raw-data frame: the column names read from the file (before the
`str.strip` cleaning of line 48) and the rows. -/
structure RawTable where
  cols : List String
  rows : List RawRow
deriving DecidableEq

/-- One row of the location-mapping CSV. -/
structure MappingRow where
  key : String
  uuid : Option String
  ltype : Option String
deriving DecidableEq

/-- The location-mapping frame. -/
structure MappingTable where
  cols : List String
  rows : List MappingRow
deriving DecidableEq

/-- Line 34: `required_cols_raw`. -/
def required_cols_raw : List String :=
  ["Country", "region", "Currency", "GrossFrom", "GrossTo",
   "Single", "Married", "Married1", "Married2", "Married3", "Married4", "Married5"]

/-- Line 36: `required_cols_mapping`. -/
def required_cols_mapping : List String :=
  ["Mercer Location Concatenation", "location_uuid", "location_type"]

/-- Line 38: `missing_raw`, the required raw columns absent from the file
(checked on the raw, un-stripped names); printed as a warning when
non-empty. -/
def missing_raw (t : RawTable) : List String :=
  required_cols_raw.filter (fun c => !(t.cols.contains c))

/-- Line 39: `missing_mapping`; when non-empty the function returns
`None, None`. -/
def missing_mapping (t : MappingTable) : List String :=
  required_cols_mapping.filter (fun c => !(t.cols.contains c))

/-- Lines 48-49: column names after `str.strip()`. -/
def strippedCols (t : RawTable) : List String := t.cols.map stripStr

/-- Line 53: `id_vars`. -/
def id_vars : List String := ["Country", "region", "Currency", "GrossFrom", "GrossTo"]

/-- Lines 56-69: `family_status_mapping`, in insertion order.  Each entry
is (family status category, source column). -/
def family_status_mapping : List (String × String) :=
  [("Single", "Single"),
   ("Single1", "Married"),
   ("Single2", "Married1"),
   ("Single3", "Married2"),
   ("Single4", "Married3"),
   ("Single5", "Married4"),
   ("Married", "Married"),
   ("Married1", "Married1"),
   ("Married2", "Married2"),
   ("Married3", "Married3"),
   ("Married4", "Married4"),
   ("Married5", "Married5")]

/-- The value of a raw row in a named source column (`temp_df[source_col]`,
line 77). -/
def RawRow.sourceVal (r : RawRow) : String → Option ℚ
  | "Single" => r.single
  | "Married" => r.married
  | "Married1" => r.married1
  | "Married2" => r.married2
  | "Married3" => r.married3
  | "Married4" => r.married4
  | "Married5" => r.married5
  | _ => none

/-- One row of `long_data` (lines 72-81). -/
structure LongRow where
  country : String
  region : Option String
  currency : String
  grossFrom : Option ℚ
  grossTo : Option ℚ
  family_status : String
  cost : Option ℚ
deriving DecidableEq

/-- The long row produced from one raw row for one alias entry
(lines 75-78). -/
def mkLongRow (familyStatus : String) (sourceCol : String) (r : RawRow) : LongRow :=
  { country := r.country
    region := r.region
    currency := r.currency
    grossFrom := r.grossFrom
    grossTo := r.grossTo
    family_status := familyStatus
    cost := r.sourceVal sourceCol }

/-- Lines 72-81: `long_data`.  For each alias entry whose source column is
present (after the column-name strip) emit one row per raw row, in the
order of the alias table. -/
def long_data (t : RawTable) : List LongRow :=
  (family_status_mapping.map (fun p =>
    if (strippedCols t).contains p.2 then t.rows.map (mkLongRow p.1 p.2) else [])).flatten

/-- A long row after the key-construction step (lines 87-88): `region_clean`
is `region.fillna('NA')` and `location_key` is the direct concatenation
`Country + region_clean`. -/
structure KeyedRow where
  country : String
  region : Option String
  currency : String
  grossFrom : Option ℚ
  grossTo : Option ℚ
  family_status : String
  cost : Option ℚ
  region_clean : String
  location_key : String
deriving DecidableEq

/-- Lines 87-88 applied to one long row. -/
def addLocationKey (r : LongRow) : KeyedRow :=
  { country := r.country
    region := r.region
    currency := r.currency
    grossFrom := r.grossFrom
    grossTo := r.grossTo
    family_status := r.family_status
    cost := r.cost
    region_clean := r.region.getD "NA"
    location_key := r.country ++ r.region.getD "NA" }

/-- `long_data` with the key columns of lines 87-88 added. -/
def keyed_data (t : RawTable) : List KeyedRow := (long_data t).map addLocationKey

/-- One row of `merged_data` (lines 94-101): the keyed row plus the
`is_XYNA` flag of line 94 and the two columns brought in by the left
join. -/
structure MergedRow where
  country : String
  region : Option String
  currency : String
  grossFrom : Option ℚ
  grossTo : Option ℚ
  family_status : String
  cost : Option ℚ
  region_clean : String
  location_key : String
  is_XYNA : Bool
  uuid : Option String
  ltype : Option String
deriving DecidableEq

/-- The merged row built from a keyed row and a join result.  `is_XYNA` is
the flag computed on `long_data` at line 94, before the merge. -/
def mkMergedRow (r : KeyedRow) (uuid ltype : Option String) : MergedRow :=
  { country := r.country
    region := r.region
    currency := r.currency
    grossFrom := r.grossFrom
    grossTo := r.grossTo
    family_status := r.family_status
    cost := r.cost
    region_clean := r.region_clean
    location_key := r.location_key
    is_XYNA := r.location_key == "XYNA"
    uuid := uuid
    ltype := ltype }

/-- The left join of one keyed row against the mapping rows (lines 97-101):
one output row per mapping row whose key equals `location_key`, or a
single row with null `uuid` and `ltype` when there is none. -/
def mergeOne (m : List MappingRow) (r : KeyedRow) : List MergedRow :=
  if (m.filter (fun mr => mr.key == r.location_key)).isEmpty
  then [mkMergedRow r none none]
  else (m.filter (fun mr => mr.key == r.location_key)).map
    (fun mr => mkMergedRow r mr.uuid mr.ltype)

/-- Lines 97-101: `merged_data`, the left outer join preserving the order
of `long_data`. -/
def merged_data (raw : RawTable) (mapping : MappingTable) : List MergedRow :=
  ((keyed_data raw).map (mergeOne mapping.rows)).flatten

/-- Line 106 / line 111: `xyna_records = merged_data[is_XYNA == True]`. -/
def xyna_records (d : List MergedRow) : List MergedRow := d.filter (fun r => r.is_XYNA)

/-- Line 107 / line 112:
`successfully_matched = merged_data[location_uuid.notna()]`. -/
def successfully_matched (d : List MergedRow) : List MergedRow :=
  d.filter (fun r => r.uuid.isSome)

/-- Line 108 / line 113:
`missing_locations = merged_data[location_uuid.isna() & ~xyna_mask]`. -/
def missing_locations (d : List MergedRow) : List MergedRow :=
  d.filter (fun r => r.uuid.isNone && !r.is_XYNA)

/-- Line 128: the grouping key for the min/max removal, with the sentinel
for a null `location_uuid`. -/
def group_key (r : MergedRow) : String := r.uuid.getD "BLANK_UUID"

/-- The rounded (in hundredths) non-null `GrossFrom` values of the group of
key `k` inside `l`; its length is the pandas `count` aggregate, which
counts non-null entries only. -/
def groupFromCents (l : List MergedRow) (k : String) : List ℤ :=
  (l.filter (fun r => group_key r == k)).filterMap (fun r => r.grossFrom.map round2Cents)

/-- The rounded non-null `GrossTo` values of the group of key `k`. -/
def groupToCents (l : List MergedRow) (k : String) : List ℤ :=
  (l.filter (fun r => group_key r == k)).filterMap (fun r => r.grossTo.map round2Cents)

/-- Lines 131-161 applied to one row of `combined_for_minmax`: null out
`GrossFrom` when its rounded value equals the group minimum and the
group count of non-null `GrossFrom` exceeds 1, and symmetrically
`GrossTo` against the group maximum.  A null value never equals the
aggregate in pandas, so a null stays null and is never a trim hit. -/
def trimRow (l : List MergedRow) (r : MergedRow) : MergedRow :=
  { r with
    grossFrom :=
      match r.grossFrom with
      | some v =>
          if (groupFromCents l (group_key r)).min? == some (round2Cents v)
              && (groupFromCents l (group_key r)).length > 1
          then none else some v
      | none => none
    grossTo :=
      match r.grossTo with
      | some v =>
          if (groupToCents l (group_key r)).max? == some (round2Cents v)
              && (groupToCents l (group_key r)).length > 1
          then none else some v
      | none => none }

/-- The min/max removal over the whole `combined_for_minmax` frame. -/
def trimData (l : List MergedRow) : List MergedRow := l.map (trimRow l)

/-- Lines 121-174: when `remove_min_max` is set and there is data, trim the
concatenation `successfully_matched ++ xyna_records` and split it back
by the `is_XYNA` flag (lines 171-172); otherwise leave both parts
unchanged. -/
def afterTrim (remove_min_max : Bool) (matched xyna : List MergedRow) :
    List MergedRow × List MergedRow :=
  if remove_min_max && (!matched.isEmpty || !xyna.isEmpty) then
    ((trimData (matched ++ xyna)).filter (fun r => !r.is_XYNA),
     (trimData (matched ++ xyna)).filter (fun r => r.is_XYNA))
  else (matched, xyna)

/-- Line 179: `final_base`, the concatenation of the (possibly trimmed)
matched and XYNA partitions. -/
def final_base (raw : RawTable) (mapping : MappingTable) (remove_min_max : Bool) :
    List MergedRow :=
  (afterTrim remove_min_max (successfully_matched (merged_data raw mapping))
      (xyna_records (merged_data raw mapping))).1
    ++ (afterTrim remove_min_max (successfully_matched (merged_data raw mapping))
      (xyna_records (merged_data raw mapping))).2

/-- One row of `final_output` after the column selection of line 263. -/
structure FinalRow where
  locationUuid : Option String
  locationType : Option String
  grossFrom : Option ℚ
  grossTo : Option ℚ
  maritalStatus : String
  numberOfChildren : String
  cost : Option ℚ
  currency : String
  serviceType : String
  validFromDate : String
  validToDate : String
  userNotes : String
deriving DecidableEq

/-- Lines 205-212: `format_user_notes`. -/
def format_user_notes (location_key : String) : String :=
  if location_key = "XYNA" then "MercerLocation: GEC"
  else if 2 ≤ location_key.length then
    "MercerLocation: " ++ (location_key.toList.take 2).asString ++ "-"
      ++ (location_key.toList.drop 2).asString
  else "MercerLocation: " ++ location_key

/-- Lines 183-225 and 250-263 applied to one row of `final_base`: derive
the output columns.  `valid_from_date.getD ""` is the value written by
the truthiness test of lines 217-225 (a `None` or empty supplied date
both yield the empty string). -/
def finalizeRow (valid_from_date valid_to_date : Option String) (r : MergedRow) : FinalRow :=
  { locationUuid := if r.is_XYNA then some "" else r.uuid
    locationType := if r.is_XYNA then some "WORLD" else r.ltype
    grossFrom := r.grossFrom
    grossTo := r.grossTo
    maritalStatus := upStr (dropTrailingDigits r.family_status)
    numberOfChildren := extract_children_count r.family_status
    cost := r.cost
    currency := r.currency
    serviceType := if r.is_XYNA then "GEC_POLICY" else ""
    validFromDate := valid_from_date.getD ""
    validToDate := valid_to_date.getD ""
    userNotes := format_user_notes r.location_key }

/-- Lines 232-239: the SINGLE half of the max-children adjustment.  A
supplied value participates only when it is Python-truthy (non-zero);
`toString n` is `str(n).strip()`. -/
def collapseSingle (single_max_children : Option ℕ) (q : FinalRow) : FinalRow :=
  match single_max_children with
  | some n =>
      if n ≠ 0 && q.maritalStatus == "SINGLE" && q.numberOfChildren == toString n
      then { q with numberOfChildren := "" } else q
  | none => q

/-- Lines 241-248: the MARRIED half of the max-children adjustment. -/
def collapseMarried (married_max_children : Option ℕ) (q : FinalRow) : FinalRow :=
  match married_max_children with
  | some n =>
      if n ≠ 0 && q.maritalStatus == "MARRIED" && q.numberOfChildren == toString n
      then { q with numberOfChildren := "" } else q
  | none => q

/-- Lines 227-248: the max-children adjustment, SINGLE then MARRIED, as in
the source order. -/
def collapseRow (single_max_children married_max_children : Option ℕ) (q : FinalRow) : FinalRow :=
  collapseMarried married_max_children (collapseSingle single_max_children q)

/-- Strict comparison of optional strings with `none` first, the
`na_position='first'` of line 264. -/
def optStrLtNaFirst : Option String → Option String → Bool
  | none, some _ => true
  | none, none => false
  | some _, none => false
  | some a, some b => strLt a b

/-- The row comparison of line 264: lexicographic on
(`locationUuid`, `maritalStatus`, `numberOfChildren`). -/
def finalRowLe (a b : FinalRow) : Bool :=
  if optStrLtNaFirst a.locationUuid b.locationUuid then true
  else if optStrLtNaFirst b.locationUuid a.locationUuid then false
  else if strLt a.maritalStatus b.maritalStatus then true
  else if strLt b.maritalStatus a.maritalStatus then false
  else if strLt a.numberOfChildren b.numberOfChildren then true
  else if strLt b.numberOfChildren a.numberOfChildren then false
  else true

/-- Lines 181-264: `final_output`.  The empty-input branch of lines 266-271
coincides with mapping and sorting the empty list. -/
def final_output (raw : RawTable) (mapping : MappingTable)
    (valid_from_date valid_to_date : Option String) (remove_min_max : Bool)
    (single_max_children married_max_children : Option ℕ) : List FinalRow :=
  sortByLe finalRowLe
    ((final_base raw mapping remove_min_max).map
      (fun r => collapseRow single_max_children married_max_children
        (finalizeRow valid_from_date valid_to_date r)))

/-- One row of `missing_output` (line 275). -/
structure MissingRow where
  country : String
  region : Option String
  location_key : String
  family_status : String
  cost : Option ℚ
deriving DecidableEq

/-- The projection of line 275: the original `region` column is taken, not
`region_clean`. -/
def missingRowOf (r : MergedRow) : MissingRow :=
  { country := r.country
    region := r.region
    location_key := r.location_key
    family_status := r.family_status
    cost := r.cost }

/-- Strict comparison of optional strings with `none` last, the pandas
default `na_position='last'` of line 276. -/
def optStrLtNaLast : Option String → Option String → Bool
  | some _, none => true
  | none, _ => false
  | some a, some b => strLt a b

/-- The row comparison of line 276: lexicographic on
(`Country`, `region`, `family_status`). -/
def missingRowLe (a b : MissingRow) : Bool :=
  if strLt a.country b.country then true
  else if strLt b.country a.country then false
  else if optStrLtNaLast a.region b.region then true
  else if optStrLtNaLast b.region a.region then false
  else if strLt a.family_status b.family_status then true
  else if strLt b.family_status a.family_status then false
  else true

/-- Lines 274-278: `missing_output`. -/
def missing_output (raw : RawTable) (mapping : MappingTable) : List MissingRow :=
  sortByLe missingRowLe ((missing_locations (merged_data raw mapping)).map missingRowOf)

/-- Whether the expansion of lines 72-81 can run to completion: every
`id_vars` column must be present (otherwise `raw_data[id_vars + ...]`
raises a KeyError on the first present source column) and at least one
source column must be present (otherwise `pd.concat([])` raises). -/
def canExpand (t : RawTable) : Bool :=
  id_vars.all (fun c => (strippedCols t).contains c)
    && family_status_mapping.any (fun p => (strippedCols t).contains p.2)

/-- The observable outcome of one call of `process_excel_workflow`:
`crash` when an uncaught exception escapes the function, `aborted` for
the explicit `return None, None` of line 45, and `ok` with the two
returned frames otherwise. -/
inductive RunResult where
  | crash : RunResult
  | aborted : RunResult
  | ok : List MissingRow → List FinalRow → RunResult
deriving DecidableEq

/-- The whole of `process_excel_workflow` (lines 4-306) on two parsed
frames.  The mapping-column check of lines 43-45 precedes everything;
the expansion raises (uncaught) when an `id_vars` column or every
source column is absent; otherwise both outputs are produced. -/
def process_excel_workflow (raw : RawTable) (mapping : MappingTable)
    (valid_from_date valid_to_date : Option String) (remove_min_max : Bool)
    (single_max_children married_max_children : Option ℕ) : RunResult :=
  if !(missing_mapping mapping).isEmpty then .aborted
  else if !(canExpand raw) then .crash
  else .ok (missing_output raw mapping)
    (final_output raw mapping valid_from_date valid_to_date remove_min_max
      single_max_children married_max_children)

/-! ## Helper lemmas -/

theorem insertLe_perm (le : α → α → Bool) (a : α) (m : List α) :
    (insertLe le a m).Perm (a :: m) := by
  induction m with
  | nil => simp [insertLe]
  | cons b bs ih =>
    simp only [insertLe]
    split
    · exact List.Perm.refl _
    · exact (List.Perm.cons b ih).trans (List.Perm.swap a b bs)

theorem sortByLe_perm (le : α → α → Bool) (l : List α) : (sortByLe le l).Perm l := by
  induction l with
  | nil => simp [sortByLe]
  | cons a as ih =>
    exact (insertLe_perm le a (sortByLe le as)).trans (List.Perm.cons a ih)

theorem mem_sortByLe (le : α → α → Bool) (l : List α) (a : α) :
    a ∈ sortByLe le l ↔ a ∈ l :=
  (sortByLe_perm le l).mem_iff

theorem sortByLe_length (le : α → α → Bool) (l : List α) :
    (sortByLe le l).length = l.length :=
  (sortByLe_perm le l).length_eq

theorem int_min?_eq_some_iff (l : List ℤ) (m : ℤ) :
    l.min? = some m ↔ m ∈ l ∧ ∀ w ∈ l, m ≤ w := by
  have anti : Std.Antisymm (fun x1 x2 : ℤ => x1 ≤ x2) := ⟨fun h h2 => le_antisymm h h2⟩
  exact List.min?_eq_some_iff (fun a => le_refl a) (fun a b => min_choice a b)
    (fun a b c => le_min_iff)

theorem int_max?_eq_some_iff (l : List ℤ) (m : ℤ) :
    l.max? = some m ↔ m ∈ l ∧ ∀ w ∈ l, w ≤ m := by
  have anti : Std.Antisymm (fun x1 x2 : ℤ => x1 ≤ x2) := ⟨fun h h2 => le_antisymm h h2⟩
  exact List.max?_eq_some_iff (fun a => le_refl a) (fun a b => max_choice a b)
    (fun a b c => max_le_iff)

/-- Every row of `mergeOne m k` is `mkMergedRow k u t` for some join
result. -/
theorem mem_mergeOne (m : List MappingRow) (k : KeyedRow) (x : MergedRow)
    (hx : x ∈ mergeOne m k) : ∃ u t, x = mkMergedRow k u t := by
  unfold mergeOne at hx
  split at hx
  · rw [List.mem_singleton] at hx
    exact ⟨none, none, hx⟩
  · rcases List.mem_map.mp hx with ⟨mr, _, h⟩
    exact ⟨mr.uuid, mr.ltype, h.symm⟩

theorem collapseSingle_fields (s : Option ℕ) (q : FinalRow) :
    (collapseSingle s q).locationUuid = q.locationUuid ∧
    (collapseSingle s q).locationType = q.locationType ∧
    (collapseSingle s q).grossFrom = q.grossFrom ∧
    (collapseSingle s q).grossTo = q.grossTo ∧
    (collapseSingle s q).maritalStatus = q.maritalStatus ∧
    (collapseSingle s q).cost = q.cost ∧
    (collapseSingle s q).currency = q.currency ∧
    (collapseSingle s q).serviceType = q.serviceType ∧
    (collapseSingle s q).validFromDate = q.validFromDate ∧
    (collapseSingle s q).validToDate = q.validToDate ∧
    (collapseSingle s q).userNotes = q.userNotes := by
  unfold collapseSingle
  rcases s with _ | n
  · simp
  · by_cases hc : (¬n = 0 ∧ q.maritalStatus = "SINGLE") ∧ q.numberOfChildren = toString n <;>
      simp [hc]

theorem collapseMarried_fields (s : Option ℕ) (q : FinalRow) :
    (collapseMarried s q).locationUuid = q.locationUuid ∧
    (collapseMarried s q).locationType = q.locationType ∧
    (collapseMarried s q).grossFrom = q.grossFrom ∧
    (collapseMarried s q).grossTo = q.grossTo ∧
    (collapseMarried s q).maritalStatus = q.maritalStatus ∧
    (collapseMarried s q).cost = q.cost ∧
    (collapseMarried s q).currency = q.currency ∧
    (collapseMarried s q).serviceType = q.serviceType ∧
    (collapseMarried s q).validFromDate = q.validFromDate ∧
    (collapseMarried s q).validToDate = q.validToDate ∧
    (collapseMarried s q).userNotes = q.userNotes := by
  unfold collapseMarried
  rcases s with _ | n
  · simp
  · by_cases hc : (¬n = 0 ∧ q.maritalStatus = "MARRIED") ∧ q.numberOfChildren = toString n <;>
      simp [hc]

/-- Inversion of the left join: every merged row comes from a keyed row,
copying all its columns. -/
theorem mem_merged_data (raw : RawTable) (mapping : MappingTable) (x : MergedRow)
    (hx : x ∈ merged_data raw mapping) :
    ∃ k ∈ keyed_data raw, ∃ u t, x = mkMergedRow k u t := by
  unfold merged_data at hx
  rcases List.mem_flatten.mp hx with ⟨blk, hblk, hxblk⟩
  rcases List.mem_map.mp hblk with ⟨k, hk, rfl⟩
  exact ⟨k, hk, mem_mergeOne mapping.rows k x hxblk⟩

/-- Inversion of the key-construction step. -/
theorem mem_keyed_data (raw : RawTable) (k : KeyedRow) (hk : k ∈ keyed_data raw) :
    ∃ e ∈ long_data raw, k = addLocationKey e := by
  rcases List.mem_map.mp hk with ⟨e, he, rfl⟩
  exact ⟨e, he, rfl⟩

/-- Inversion of the wide-to-long expansion: every long row is produced by
one alias entry whose source column is present, from one raw row. -/
theorem mem_long_data (t : RawTable) (e : LongRow) (he : e ∈ long_data t) :
    ∃ p ∈ family_status_mapping, (strippedCols t).contains p.2 = true ∧
      ∃ r ∈ t.rows, e = mkLongRow p.1 p.2 r := by
  unfold long_data at he
  rcases List.mem_flatten.mp he with ⟨blk, hblk, heblk⟩
  rcases List.mem_map.mp hblk with ⟨p, hp, rfl⟩
  by_cases hc : (strippedCols t).contains p.2 = true
  · rw [if_pos hc] at heblk
    rcases List.mem_map.mp heblk with ⟨r, hr, hmk⟩
    exact ⟨p, hp, hc, r, hr, hmk.symm⟩
  · rw [if_neg hc] at heblk
    cases heblk

/-- The `is_XYNA` column of line 94 agrees with the test
`location_key == "XYNA"` on every merged row. -/
theorem merged_is_XYNA (raw : RawTable) (mapping : MappingTable) (x : MergedRow)
    (hx : x ∈ merged_data raw mapping) :
    x.is_XYNA = (x.location_key == "XYNA") := by
  rcases mem_merged_data raw mapping x hx with ⟨k, _, u, t, rfl⟩
  rfl

/-- `trimRow` changes only the two gross columns. -/
theorem trimRow_fields (l : List MergedRow) (r : MergedRow) :
    (trimRow l r).country = r.country ∧ (trimRow l r).region = r.region ∧
    (trimRow l r).currency = r.currency ∧ (trimRow l r).family_status = r.family_status ∧
    (trimRow l r).cost = r.cost ∧ (trimRow l r).region_clean = r.region_clean ∧
    (trimRow l r).location_key = r.location_key ∧ (trimRow l r).is_XYNA = r.is_XYNA ∧
    (trimRow l r).uuid = r.uuid ∧ (trimRow l r).ltype = r.ltype :=
  ⟨rfl, rfl, rfl, rfl, rfl, rfl, rfl, rfl, rfl, rfl⟩

/-- Every row of `final_base` is a merged row, possibly trimmed; in all
cases the `is_XYNA` flag still agrees with the `location_key` test. -/
theorem final_base_is_XYNA (raw : RawTable) (mapping : MappingTable) (rmm : Bool)
    (b : MergedRow) (hb : b ∈ final_base raw mapping rmm) :
    b.is_XYNA = (b.location_key == "XYNA") := by
  have key : ∀ y, y ∈ successfully_matched (merged_data raw mapping)
        ++ xyna_records (merged_data raw mapping) →
      y.is_XYNA = (y.location_key == "XYNA") := by
    intro y hy
    rcases List.mem_append.mp hy with h | h
    · exact merged_is_XYNA raw mapping y (List.mem_filter.mp h).1
    · exact merged_is_XYNA raw mapping y (List.mem_filter.mp h).1
  unfold final_base afterTrim at hb
  split at hb
  · simp only [List.mem_append, List.mem_filter] at hb
    have hbtrim : b ∈ trimData (successfully_matched (merged_data raw mapping)
        ++ xyna_records (merged_data raw mapping)) := by tauto
    unfold trimData at hbtrim
    rcases List.mem_map.mp hbtrim with ⟨y, hy, rfl⟩
    have h1 := key y hy
    rcases trimRow_fields (successfully_matched (merged_data raw mapping)
        ++ xyna_records (merged_data raw mapping)) y with
      ⟨_, _, _, _, _, _, hkey, hflag, _, _⟩
    rw [hflag, hkey]
    exact h1
  · exact key b hb

/-- The max-children adjustment touches only `numberOfChildren`. -/
theorem collapseRow_fields (smc mmc : Option ℕ) (q : FinalRow) :
    (collapseRow smc mmc q).locationUuid = q.locationUuid ∧
    (collapseRow smc mmc q).locationType = q.locationType ∧
    (collapseRow smc mmc q).grossFrom = q.grossFrom ∧
    (collapseRow smc mmc q).grossTo = q.grossTo ∧
    (collapseRow smc mmc q).maritalStatus = q.maritalStatus ∧
    (collapseRow smc mmc q).cost = q.cost ∧
    (collapseRow smc mmc q).currency = q.currency ∧
    (collapseRow smc mmc q).serviceType = q.serviceType ∧
    (collapseRow smc mmc q).validFromDate = q.validFromDate ∧
    (collapseRow smc mmc q).validToDate = q.validToDate ∧
    (collapseRow smc mmc q).userNotes = q.userNotes := by
  have h1 := collapseSingle_fields smc q
  have h2 := collapseMarried_fields mmc (collapseSingle smc q)
  unfold collapseRow
  exact ⟨h2.1.trans h1.1, h2.2.1.trans h1.2.1, h2.2.2.1.trans h1.2.2.1,
    h2.2.2.2.1.trans h1.2.2.2.1, h2.2.2.2.2.1.trans h1.2.2.2.2.1,
    h2.2.2.2.2.2.1.trans h1.2.2.2.2.2.1, h2.2.2.2.2.2.2.1.trans h1.2.2.2.2.2.2.1,
    h2.2.2.2.2.2.2.2.1.trans h1.2.2.2.2.2.2.2.1,
    h2.2.2.2.2.2.2.2.2.1.trans h1.2.2.2.2.2.2.2.2.1,
    h2.2.2.2.2.2.2.2.2.2.1.trans h1.2.2.2.2.2.2.2.2.2.1,
    h2.2.2.2.2.2.2.2.2.2.2.trans h1.2.2.2.2.2.2.2.2.2.2⟩

/-! ## Concrete input tables used by counterexamples and witnesses -/

/-- A raw row with country "XY" and literal region "NA", whose location key
is therefore "XYNA". -/
def rowXY : RawRow :=
  { country := "XY", region := some "NA", currency := "USD",
    grossFrom := some 1, grossTo := some 2, single := some 100,
    married := none, married1 := none, married2 := none,
    married3 := none, married4 := none, married5 := none }

/-- A raw table holding only `rowXY`; the Married columns are absent, so
only the Single category expands (a soft warning in the script). -/
def rawXYNA : RawTable :=
  { cols := ["Country", "region", "Currency", "GrossFrom", "GrossTo", "Single"],
    rows := [rowXY] }

/-- A mapping table that contains a row whose source key is the exception
token "XYNA". -/
def mapXYNA : MappingTable :=
  { cols := ["Mercer Location Concatenation", "location_uuid", "location_type"],
    rows := [{ key := "XYNA", uuid := some "world-1", ltype := some "WORLD" }] }

/-- A raw row with country "US" and a null region, key "USNA". -/
def rowUS : RawRow :=
  { country := "US", region := none, currency := "USD",
    grossFrom := some 1, grossTo := some 2, single := some 100,
    married := none, married1 := none, married2 := none,
    married3 := none, married4 := none, married5 := none }

/-- A raw table holding only `rowUS`. -/
def rawUS : RawTable :=
  { cols := ["Country", "region", "Currency", "GrossFrom", "GrossTo", "Single"],
    rows := [rowUS] }

/-- A mapping table in which the key "USNA" occurs twice with two distinct
identifiers. -/
def mapUSdup : MappingTable :=
  { cols := ["Mercer Location Concatenation", "location_uuid", "location_type"],
    rows := [{ key := "USNA", uuid := some "uuid-1", ltype := some "CITY" },
             { key := "USNA", uuid := some "uuid-2", ltype := some "CITY" }] }

/-- A mapping table with a single row for key "USNA". -/
def mapL1 : MappingTable :=
  { cols := ["Mercer Location Concatenation", "location_uuid", "location_type"],
    rows := [{ key := "USNA", uuid := some "L1", ltype := some "CITY" }] }

/-- A raw table whose required identifier column "Country" is absent from
the file (all other required columns present). -/
def rawNoCountry : RawTable :=
  { cols := ["region", "Currency", "GrossFrom", "GrossTo", "Single", "Married",
             "Married1", "Married2", "Married3", "Married4", "Married5"],
    rows := [rowUS] }

/-- A raw row with a value in each of the twelve columns. -/
def rowFull : RawRow :=
  { country := "US", region := some "CA", currency := "USD",
    grossFrom := some 1, grossTo := some 2, single := some 10,
    married := some 11, married1 := some 12, married2 := some 13,
    married3 := some 14, married4 := some 15, married5 := some 16 }

/-- A raw table with every required column present. -/
def rawFull : RawTable :=
  { cols := ["Country", "region", "Currency", "GrossFrom", "GrossTo", "Single", "Married",
             "Married1", "Married2", "Married3", "Married4", "Married5"],
    rows := [rowFull] }

/-- A raw table missing exactly the value column "Single". -/
def rawNoSingle : RawTable :=
  { cols := ["Country", "region", "Currency", "GrossFrom", "GrossTo", "Married",
             "Married1", "Married2", "Married3", "Married4", "Married5"],
    rows := [{ country := "US", region := some "CA", currency := "USD",
               grossFrom := some 1, grossTo := some 2, single := some 10,
               married := some 11, married1 := some 12, married2 := some 13,
               married3 := some 14, married4 := some 15, married5 := some 16 }] }

/-- A mapping table whose required column "location_uuid" is absent. -/
def mapNoUuid : MappingTable :=
  { cols := ["Mercer Location Concatenation", "location_type"], rows := [] }

/-- Two raw rows sharing the key "USNA": the first has a null GrossFrom,
the second carries GrossFrom 10; used against a single mapping row so
both land in one trim group. -/
def rawTrim : RawTable :=
  { cols := ["Country", "region", "Currency", "GrossFrom", "GrossTo", "Single"],
    rows := [{ country := "US", region := none, currency := "USD",
               grossFrom := none, grossTo := some 5, single := some 1,
               married := none, married1 := none, married2 := none,
               married3 := none, married4 := none, married5 := none },
             { country := "US", region := none, currency := "USD",
               grossFrom := some 10, grossTo := some 7, single := some 2,
               married := none, married1 := none, married2 := none,
               married3 := none, married4 := none, married5 := none }] }

/-- The trim-step input frame of the `rawTrim`/`mapL1` run: the
concatenation of the matched and XYNA partitions (line 124). -/
def combinedTrim : List MergedRow :=
  successfully_matched (merged_data rawTrim mapL1) ++ xyna_records (merged_data rawTrim mapL1)

/-! ## Claims -/

theorem partition_count (l : List MergedRow) :
    (successfully_matched l).length + (xyna_records l).length + (missing_locations l).length
      = l.length + (l.filter (fun r => r.is_XYNA && r.uuid.isSome)).length := by
  induction l with
  | nil => rfl
  | cons r t ih =>
    unfold successfully_matched xyna_records missing_locations at ih ⊢
    rcases hu : r.uuid with _ | u <;> cases hx : r.is_XYNA <;>
      simp [List.filter_cons, hu, hx] <;> omega

/-- Claim C1, amended.  The three masks of lines 106-108 are not mutually
exclusive: a merged record that is both an exception (key "XYNA") and
successfully joined (non-null id) is counted in both the Exception and
the Matched partition, so the partition sizes sum to the number of
post-join records plus the number of such double-counted records.  An
expanded record with key "XYNA" is always in the Exception partition,
and it is additionally in the Matched partition whenever the join gave
it a non-null identifier. -/
theorem claim_C1 (raw : RawTable) (mapping : MappingTable) :
    ((successfully_matched (merged_data raw mapping)).length
        + (xyna_records (merged_data raw mapping)).length
        + (missing_locations (merged_data raw mapping)).length
      = (merged_data raw mapping).length
        + ((merged_data raw mapping).filter (fun r => r.is_XYNA && r.uuid.isSome)).length) ∧
    (∀ r ∈ merged_data raw mapping, r.is_XYNA = true →
      r ∈ xyna_records (merged_data raw mapping)) ∧
    (∀ r ∈ merged_data raw mapping, r.is_XYNA = true → r.uuid.isSome = true →
      r ∈ successfully_matched (merged_data raw mapping)) := by
  refine ⟨partition_count (merged_data raw mapping), ?_, ?_⟩
  · intro r hr hx
    exact List.mem_filter.mpr ⟨hr, hx⟩
  · intro r hr _ hu
    exact List.mem_filter.mpr ⟨hr, hu⟩

/-- Claim C1 as stated is false on the code: with a mapping row keyed
"XYNA", the single expanded record of `rawXYNA` lands in both the
Matched and the Exception partition, so the three partition sizes sum
to 2 while there is exactly 1 expanded (and 1 post-join) record. -/
theorem claim_C1_counterexample :
    (long_data rawXYNA).length = 1 ∧
    (merged_data rawXYNA mapXYNA).length = 1 ∧
    (successfully_matched (merged_data rawXYNA mapXYNA)).length
      + (xyna_records (merged_data rawXYNA mapXYNA)).length
      + (missing_locations (merged_data rawXYNA mapXYNA)).length = 2 := by
  decide

/-- Closed instance of the amended claim C1 at the counterexample input:
both membership conjuncts are discharged on the concrete XYNA record. -/
theorem claim_C1_witness :
    (successfully_matched (merged_data rawXYNA mapXYNA)).length
        + (xyna_records (merged_data rawXYNA mapXYNA)).length
        + (missing_locations (merged_data rawXYNA mapXYNA)).length
      = (merged_data rawXYNA mapXYNA).length
        + ((merged_data rawXYNA mapXYNA).filter
            (fun r => r.is_XYNA && r.uuid.isSome)).length :=
  (claim_C1 rawXYNA mapXYNA).1

/-- Claim C2, amended.  The left join of lines 97-101 does not resolve
duplicates: one expanded record produces one matched record per mapping
row whose key equals its location key and whose identifier is non-null
(and a single unmatched row when no key matches), so a duplicated
mapping key duplicates the record instead of letting the first match
win. -/
theorem claim_C2 (m : List MappingRow) (r : KeyedRow) :
    ((successfully_matched (mergeOne m r)).length
      = ((m.filter (fun mr => mr.key == r.location_key)).filter
          (fun mr => mr.uuid.isSome)).length) ∧
    ((mergeOne m r).length = max 1 (m.filter (fun mr => mr.key == r.location_key)).length) ∧
    (∀ raw mapping, merged_data raw mapping
      = ((keyed_data raw).map (mergeOne mapping.rows)).flatten) := by
  refine ⟨?_, ?_, fun raw mapping => rfl⟩
  · unfold successfully_matched mergeOne
    by_cases h : (m.filter (fun mr => mr.key == r.location_key)).isEmpty = true
    · rw [if_pos h]
      have hnil : m.filter (fun mr => mr.key == r.location_key) = [] :=
        List.isEmpty_iff.mp h
      simp [hnil, mkMergedRow]
    · rw [if_neg h]
      rw [List.filter_map]
      simp [Function.comp_def, mkMergedRow]
  · unfold mergeOne
    by_cases h : (m.filter (fun mr => mr.key == r.location_key)).isEmpty = true
    · rw [if_pos h]
      have hnil : m.filter (fun mr => mr.key == r.location_key) = [] :=
        List.isEmpty_iff.mp h
      simp [hnil]
    · rw [if_neg h]
      have hlen : (m.filter (fun mr => mr.key == r.location_key)).length ≠ 0 := by
        intro h0
        exact h (by simpa [List.isEmpty_iff, List.length_eq_zero] using h0)
      simp only [List.length_map]
      omega

/-- Claim C2 as stated is false on the code: the key "USNA" occurs twice
in `mapUSdup`, and the single expanded record of `rawUS` yields two
matched records, carrying the two different identifiers (no first-match
resolution). -/
theorem claim_C2_counterexample :
    (long_data rawUS).length = 1 ∧
    (successfully_matched (merged_data rawUS mapUSdup)).length = 2 ∧
    ((successfully_matched (merged_data rawUS mapUSdup)).map (fun r => r.uuid))
      = [some "uuid-1", some "uuid-2"] := by
  decide

/-- Claim C3: a location-mapping table missing a required column makes the
core return before any transformation (the `return None, None` of
line 45): no partial output exists and both outputs are empty/absent. -/
theorem claim_C3 (raw : RawTable) (mapping : MappingTable)
    (vfd vtd : Option String) (rmm : Bool) (smc mmc : Option ℕ)
    (h : missing_mapping mapping ≠ []) :
    process_excel_workflow raw mapping vfd vtd rmm smc mmc = .aborted := by
  have h2 : (missing_mapping mapping).isEmpty = false := by
    cases hmm2 : missing_mapping mapping with
    | nil => exact absurd hmm2 h
    | cons a t => rfl
  simp [process_excel_workflow, h2]

/-- Witness for claim C3: a mapping table without "location_uuid" aborts
a run on an otherwise complete raw table. -/
theorem claim_C3_witness :
    missing_mapping mapNoUuid ≠ [] ∧
    process_excel_workflow rawFull mapNoUuid none none false none none = .aborted :=
  ⟨by decide, claim_C3 rawFull mapNoUuid none none false none none (by decide)⟩

/-- Claim C4, amended.  Missing raw-data columns are non-fatal only when
every `id_vars` column is present and at least one family-status source
column survives: then the run completes with both outputs, the missing
columns are reported (the warning list of line 38 is exactly the
non-present required columns), and no expanded row carries a category
whose source column is absent.  A missing identifier column (Country,
region, Currency, GrossFrom, GrossTo), or the absence of every source
column, instead makes the expansion raise, so the run returns nothing. -/
theorem claim_C4 (raw : RawTable) (mapping : MappingTable)
    (vfd vtd : Option String) (rmm : Bool) (smc mmc : Option ℕ)
    (hmap : missing_mapping mapping = [])
    (hexp : canExpand raw = true) :
    (process_excel_workflow raw mapping vfd vtd rmm smc mmc
      = .ok (missing_output raw mapping)
           (final_output raw mapping vfd vtd rmm smc mmc)) ∧
    (∀ p ∈ family_status_mapping, (strippedCols raw).contains p.2 = false →
      ∀ e ∈ long_data raw, e.family_status ≠ p.1) ∧
    (missing_raw raw ≠ [] ↔ ∃ c ∈ required_cols_raw, c ∉ raw.cols) := by
  refine ⟨?_, ?_, ?_⟩
  · simp [process_excel_workflow, hmap, hexp]
  · intro p hp hc e he hfs
    rcases mem_long_data raw e he with ⟨q, hq, hqc, r, _, rfl⟩
    have hfs2 : q.1 = p.1 := hfs
    have uniq : ∀ a ∈ family_status_mapping, ∀ b ∈ family_status_mapping,
        b.1 = a.1 → b = a := by decide
    have : q = p := uniq p hp q hq hfs2
    rw [this] at hqc
    rw [hqc] at hc
    cases hc
  · rw [ne_eq, missing_raw, List.filter_eq_nil_iff]
    push_neg
    simp [List.contains, List.elem_iff]

/-- Claim C4 as stated is false on the code: with the required raw column
"Country" absent the warning of line 42 fires, but the expansion then
raises a KeyError at line 75 (`raw_data[id_vars + [source_col]]`), so
the run completes with no outputs at all rather than returning both. -/
theorem claim_C4_counterexample :
    missing_raw rawNoCountry ≠ [] ∧
    process_excel_workflow rawNoCountry mapL1 none none false none none = .crash := by
  decide

/-- Witness for the amended claim C4: with only the value column "Single"
missing the run completes, returns both outputs, reports the missing
column, and produces no "Single" category. -/
theorem claim_C4_witness :
    missing_mapping mapL1 = [] ∧ canExpand rawNoSingle = true ∧
    ((process_excel_workflow rawNoSingle mapL1 none none false none none
      = .ok (missing_output rawNoSingle mapL1)
           (final_output rawNoSingle mapL1 none none false none none)) ∧
    (∀ p ∈ family_status_mapping, (strippedCols rawNoSingle).contains p.2 = false →
      ∀ e ∈ long_data rawNoSingle, e.family_status ≠ p.1) ∧
    (missing_raw rawNoSingle ≠ [] ↔ ∃ c ∈ required_cols_raw, c ∉ rawNoSingle.cols)) :=
  ⟨by decide, by decide,
    claim_C4 rawNoSingle mapL1 none none false none none (by decide) (by decide)⟩

theorem mem_groupFromCents (l : List MergedRow) (r : MergedRow) (v : ℚ)
    (hr : r ∈ l) (hv : r.grossFrom = some v) :
    round2Cents v ∈ groupFromCents l (group_key r) := by
  unfold groupFromCents
  refine List.mem_filterMap.mpr ⟨r, List.mem_filter.mpr ⟨hr, ?_⟩, ?_⟩
  · exact beq_self_eq_true (group_key r)
  · rw [hv]
    rfl

theorem mem_groupToCents (l : List MergedRow) (r : MergedRow) (v : ℚ)
    (hr : r ∈ l) (hv : r.grossTo = some v) :
    round2Cents v ∈ groupToCents l (group_key r) := by
  unfold groupToCents
  refine List.mem_filterMap.mpr ⟨r, List.mem_filter.mpr ⟨hr, ?_⟩, ?_⟩
  · exact beq_self_eq_true (group_key r)
  · rw [hv]
    rfl

theorem trimRow_from_iff (l : List MergedRow) (r : MergedRow) (hr : r ∈ l) :
    (trimRow l r).grossFrom = none ↔
      r.grossFrom = none ∨ ∃ v, r.grossFrom = some v ∧
        1 < (groupFromCents l (group_key r)).length ∧
        ∀ w ∈ groupFromCents l (group_key r), round2Cents v ≤ w := by
  rcases hgf : r.grossFrom with _ | v
  · simp [trimRow, hgf]
  · have heq : (trimRow l r).grossFrom =
        if (groupFromCents l (group_key r)).min? == some (round2Cents v)
            && (groupFromCents l (group_key r)).length > 1
        then none else some v := by
      simp [trimRow, hgf]
    rw [heq]
    by_cases hC : (groupFromCents l (group_key r)).min? = some (round2Cents v)
        ∧ 1 < (groupFromCents l (group_key r)).length
    · rw [if_pos (by simp [hC.1, hC.2])]
      rcases (int_min?_eq_some_iff _ _).mp hC.1 with ⟨_, hlb⟩
      constructor
      · intro _
        exact Or.inr ⟨v, rfl, hC.2, hlb⟩
      · intro _
        rfl
    · have hCb : (((groupFromCents l (group_key r)).min? == some (round2Cents v))
          && decide ((groupFromCents l (group_key r)).length > 1)) = false := by
        rcases not_and_or.mp hC with h | h
        · have h1 : ((groupFromCents l (group_key r)).min? == some (round2Cents v)) = false := by
            simpa [beq_iff_eq] using h
          simp [h1]
        · have h1 : decide ((groupFromCents l (group_key r)).length > 1) = false := by
            simpa using h
          simp [h1]
      rw [hCb]
      constructor
      · intro h0
        cases h0
      · rintro (h0 | ⟨w, hw, hlen, hlb⟩)
        · cases h0
        · injection hw with hveq
          subst hveq
          have hmin : (groupFromCents l (group_key r)).min? = some (round2Cents v) :=
            (int_min?_eq_some_iff _ _).mpr ⟨mem_groupFromCents l r v hr hgf, hlb⟩
          exact absurd ⟨hmin, hlen⟩ hC

theorem trimRow_to_iff (l : List MergedRow) (r : MergedRow) (hr : r ∈ l) :
    (trimRow l r).grossTo = none ↔
      r.grossTo = none ∨ ∃ v, r.grossTo = some v ∧
        1 < (groupToCents l (group_key r)).length ∧
        ∀ w ∈ groupToCents l (group_key r), w ≤ round2Cents v := by
  rcases hgt : r.grossTo with _ | v
  · simp [trimRow, hgt]
  · have heq : (trimRow l r).grossTo =
        if (groupToCents l (group_key r)).max? == some (round2Cents v)
            && (groupToCents l (group_key r)).length > 1
        then none else some v := by
      simp [trimRow, hgt]
    rw [heq]
    by_cases hC : (groupToCents l (group_key r)).max? = some (round2Cents v)
        ∧ 1 < (groupToCents l (group_key r)).length
    · rw [if_pos (by simp [hC.1, hC.2])]
      rcases (int_max?_eq_some_iff _ _).mp hC.1 with ⟨_, hub⟩
      constructor
      · intro _
        exact Or.inr ⟨v, rfl, hC.2, hub⟩
      · intro _
        rfl
    · have hCb : (((groupToCents l (group_key r)).max? == some (round2Cents v))
          && decide ((groupToCents l (group_key r)).length > 1)) = false := by
        rcases not_and_or.mp hC with h | h
        · have h1 : ((groupToCents l (group_key r)).max? == some (round2Cents v)) = false := by
            simpa [beq_iff_eq] using h
          simp [h1]
        · have h1 : decide ((groupToCents l (group_key r)).length > 1) = false := by
            simpa using h
          simp [h1]
      rw [hCb]
      constructor
      · intro h0
        cases h0
      · rintro (h0 | ⟨w, hw, hlen, hub⟩)
        · cases h0
        · injection hw with hveq
          subst hveq
          have hmax : (groupToCents l (group_key r)).max? = some (round2Cents v) :=
            (int_max?_eq_some_iff _ _).mpr ⟨mem_groupToCents l r v hr hgt, hub⟩
          exact absurd ⟨hmax, hlen⟩ hC

/-- Claim C5, amended.  Within a trim group (key: `location_uuid` with the
"BLANK_UUID" sentinel), a row's GrossFrom is nulled exactly when it is
non-null and its rounded value is a minimum of the group's non-null
rounded GrossFrom values and the group holds MORE THAN ONE NON-NULL
GrossFrom (the pandas `count` aggregate of line 135 counts non-null
entries, not rows); symmetrically for GrossTo against the maximum.  A
value that is not nulled is left unchanged.  In particular a group
whose column has at most one non-null entry is never trimmed in that
column, which subsumes the one-row-group clause of the claim. -/
theorem claim_C5 (l : List MergedRow) (r : MergedRow) (hr : r ∈ l) :
    ((trimRow l r).grossFrom = none ↔
      r.grossFrom = none ∨ ∃ v, r.grossFrom = some v ∧
        1 < (groupFromCents l (group_key r)).length ∧
        ∀ w ∈ groupFromCents l (group_key r), round2Cents v ≤ w) ∧
    ((trimRow l r).grossTo = none ↔
      r.grossTo = none ∨ ∃ v, r.grossTo = some v ∧
        1 < (groupToCents l (group_key r)).length ∧
        ∀ w ∈ groupToCents l (group_key r), w ≤ round2Cents v) ∧
    ((trimRow l r).grossFrom = none ∨ (trimRow l r).grossFrom = r.grossFrom) ∧
    ((trimRow l r).grossTo = none ∨ (trimRow l r).grossTo = r.grossTo) ∧
    trimData l = l.map (trimRow l) := by
  refine ⟨trimRow_from_iff l r hr, trimRow_to_iff l r hr, ?_, ?_, rfl⟩
  · rcases hgf : r.grossFrom with _ | v
    · left
      simp [trimRow, hgf]
    · have heq : (trimRow l r).grossFrom =
          if (groupFromCents l (group_key r)).min? == some (round2Cents v)
              && (groupFromCents l (group_key r)).length > 1
          then none else some v := by
        simp [trimRow, hgf]
      rw [heq]
      split
      · exact Or.inl rfl
      · exact Or.inr rfl
  · rcases hgt : r.grossTo with _ | v
    · left
      simp [trimRow, hgt]
    · have heq : (trimRow l r).grossTo =
          if (groupToCents l (group_key r)).max? == some (round2Cents v)
              && (groupToCents l (group_key r)).length > 1
          then none else some v := by
        simp [trimRow, hgt]
      rw [heq]
      split
      · exact Or.inl rfl
      · exact Or.inr rfl

/-- Claim C5 as stated is false on the code: the two rows of `combinedTrim`
form one group of key "L1" (more than one row), the second row's rounded
GrossFrom (10.00) is the minimum rounded GrossFrom of the group (the
only non-null one), yet trimming leaves it untouched, because the
`grossFrom_rounded_count` aggregate of line 135 counts the single
non-null entry, not the two rows of the group; the value survives into
the final output of a run with outlier removal enabled. -/
theorem claim_C5_counterexample :
    combinedTrim.map group_key = ["L1", "L1"] ∧
    combinedTrim.map (fun r => r.grossFrom) = [none, some 10] ∧
    (trimData combinedTrim).map (fun r => r.grossFrom) = [none, some 10] ∧
    (final_output rawTrim mapL1 none none true none none).map (fun r => r.grossFrom)
      = [none, some 10] := by
  decide

/-- The second row of `combinedTrim`: non-null GrossFrom 10, GrossTo 7,
group "L1". -/
def trimWitRow : MergedRow :=
  { country := "US", region := none, currency := "USD",
    grossFrom := some 10, grossTo := some 7, family_status := "Single",
    cost := some 2, region_clean := "NA", location_key := "USNA",
    is_XYNA := false, uuid := some "L1", ltype := some "CITY" }

/-- Witness for the amended claim C5, at the concrete trim group of
`combinedTrim` and its second row. -/
theorem claim_C5_witness :
    trimWitRow ∈ combinedTrim ∧
    (((trimRow combinedTrim trimWitRow).grossFrom = none ↔
      trimWitRow.grossFrom = none ∨ ∃ v, trimWitRow.grossFrom = some v ∧
        1 < (groupFromCents combinedTrim (group_key trimWitRow)).length ∧
        ∀ w ∈ groupFromCents combinedTrim (group_key trimWitRow), round2Cents v ≤ w) ∧
    ((trimRow combinedTrim trimWitRow).grossTo = none ↔
      trimWitRow.grossTo = none ∨ ∃ v, trimWitRow.grossTo = some v ∧
        1 < (groupToCents combinedTrim (group_key trimWitRow)).length ∧
        ∀ w ∈ groupToCents combinedTrim (group_key trimWitRow), w ≤ round2Cents v) ∧
    ((trimRow combinedTrim trimWitRow).grossFrom = none ∨
      (trimRow combinedTrim trimWitRow).grossFrom = trimWitRow.grossFrom) ∧
    ((trimRow combinedTrim trimWitRow).grossTo = none ∨
      (trimRow combinedTrim trimWitRow).grossTo = trimWitRow.grossTo) ∧
    trimData combinedTrim = combinedTrim.map (trimRow combinedTrim)) :=
  ⟨by decide, claim_C5 combinedTrim trimWitRow (by decide)⟩

/-- Claim C6: every final output row comes from a base row; when that base
row's location key is "XYNA" (line 94 flag), the output row has
locationUuid "", locationType "WORLD" and serviceType "GEC_POLICY"
(lines 196-202), irrespective of the mapping contents; otherwise its
serviceType is the empty string. -/
theorem claim_C6 (raw : RawTable) (mapping : MappingTable)
    (vfd vtd : Option String) (rmm : Bool) (smc mmc : Option ℕ)
    (q : FinalRow) (hq : q ∈ final_output raw mapping vfd vtd rmm smc mmc) :
    ∃ b ∈ final_base raw mapping rmm,
      q = collapseRow smc mmc (finalizeRow vfd vtd b) ∧
      (b.location_key = "XYNA" →
        q.locationUuid = some "" ∧ q.locationType = some "WORLD" ∧
        q.serviceType = "GEC_POLICY") ∧
      (b.location_key ≠ "XYNA" → q.serviceType = "") := by
  rw [final_output, mem_sortByLe] at hq
  rcases List.mem_map.mp hq with ⟨b, hb, rfl⟩
  have hx := final_base_is_XYNA raw mapping rmm b hb
  rcases collapseRow_fields smc mmc (finalizeRow vfd vtd b) with
    ⟨hu, ht, _, _, _, _, _, hs, _, _, _⟩
  refine ⟨b, hb, rfl, ?_, ?_⟩
  · intro hkey
    have hbx : b.is_XYNA = true := by
      rw [hx]
      simp [hkey]
    refine ⟨?_, ?_, ?_⟩
    · rw [hu]
      simp [finalizeRow, hbx]
    · rw [ht]
      simp [finalizeRow, hbx]
    · rw [hs]
      simp [finalizeRow, hbx]
  · intro hkey
    have hbx : b.is_XYNA = false := by
      rw [hx]
      simp [hkey]
    rw [hs]
    simp [finalizeRow, hbx]

/-- The final row produced for the XYNA record of the `rawXYNA`/`mapXYNA`
run. -/
def xynaFinalRow : FinalRow :=
  { locationUuid := some "", locationType := some "WORLD", grossFrom := some 1,
    grossTo := some 2, maritalStatus := "SINGLE", numberOfChildren := "0",
    cost := some 100, currency := "USD", serviceType := "GEC_POLICY",
    validFromDate := "", validToDate := "", userNotes := "MercerLocation: GEC" }

/-- Witness for claim C6, on a run whose mapping even contains a "XYNA"
row: the output row still carries "", "WORLD" and "GEC_POLICY". -/
theorem claim_C6_witness :
    xynaFinalRow ∈ final_output rawXYNA mapXYNA none none false none none ∧
    ∃ b ∈ final_base rawXYNA mapXYNA false,
      xynaFinalRow = collapseRow none none (finalizeRow none none b) ∧
      (b.location_key = "XYNA" →
        xynaFinalRow.locationUuid = some "" ∧ xynaFinalRow.locationType = some "WORLD" ∧
        xynaFinalRow.serviceType = "GEC_POLICY") ∧
      (b.location_key ≠ "XYNA" → xynaFinalRow.serviceType = "") :=
  ⟨by decide,
    claim_C6 rawXYNA mapXYNA none none false none none xynaFinalRow (by decide)⟩

/-- Claim C7: when max-children values are supplied (Python-truthy, so a
positive integer), the collapse of lines 227-248 empties
`numberOfChildren` exactly on the rows whose marital bucket and exact
string count match one of the supplied values (or whose count was
already empty); every untouched row keeps its count, all other columns
are unchanged, and the number of output rows equals the number of base
rows. -/
theorem claim_C7 (smc mmc : Option ℕ) (q : FinalRow) (raw : RawTable)
    (mapping : MappingTable) (vfd vtd : Option String) (rmm : Bool) :
    ((collapseRow smc mmc q).numberOfChildren = "" ↔
      q.numberOfChildren = "" ∨
      (∃ n, smc = some n ∧ n ≠ 0 ∧ q.maritalStatus = "SINGLE" ∧
        q.numberOfChildren = toString n) ∨
      (∃ n, mmc = some n ∧ n ≠ 0 ∧ q.maritalStatus = "MARRIED" ∧
        q.numberOfChildren = toString n)) ∧
    ((collapseRow smc mmc q).numberOfChildren = "" ∨
      (collapseRow smc mmc q).numberOfChildren = q.numberOfChildren) ∧
    ((collapseRow smc mmc q).locationUuid = q.locationUuid ∧
      (collapseRow smc mmc q).locationType = q.locationType ∧
      (collapseRow smc mmc q).grossFrom = q.grossFrom ∧
      (collapseRow smc mmc q).grossTo = q.grossTo ∧
      (collapseRow smc mmc q).maritalStatus = q.maritalStatus ∧
      (collapseRow smc mmc q).cost = q.cost ∧
      (collapseRow smc mmc q).currency = q.currency ∧
      (collapseRow smc mmc q).serviceType = q.serviceType ∧
      (collapseRow smc mmc q).validFromDate = q.validFromDate ∧
      (collapseRow smc mmc q).validToDate = q.validToDate ∧
      (collapseRow smc mmc q).userNotes = q.userNotes) ∧
    (final_output raw mapping vfd vtd rmm smc mmc).length
      = (final_base raw mapping rmm).length := by
  have csn : ∀ r : FinalRow, collapseSingle none r = r := fun r => rfl
  have css : ∀ (n : ℕ) (r : FinalRow), collapseSingle (some n) r =
      if n ≠ 0 && r.maritalStatus == "SINGLE" && r.numberOfChildren == toString n
      then { r with numberOfChildren := "" } else r := fun n r => rfl
  have cmn : ∀ r : FinalRow, collapseMarried none r = r := fun r => rfl
  have cms : ∀ (m : ℕ) (r : FinalRow), collapseMarried (some m) r =
      if m ≠ 0 && r.maritalStatus == "MARRIED" && r.numberOfChildren == toString m
      then { r with numberOfChildren := "" } else r := fun m r => rfl
  refine ⟨?_, ?_, collapseRow_fields smc mmc q, ?_⟩
  · unfold collapseRow
    rcases smc with _ | n <;> rcases mmc with _ | m <;>
      simp only [csn, css, cmn, cms] <;>
      (try split_ifs) <;> (try simp_all)
  · unfold collapseRow
    rcases smc with _ | n <;> rcases mmc with _ | m <;>
      simp only [csn, css, cmn, cms] <;>
      (try split_ifs) <;> (try simp_all)
  · rw [final_output, sortByLe_length, List.length_map]

/-- A final row in the SINGLE bucket with pre-collapse count "3". -/
def single3Row : FinalRow :=
  { locationUuid := some "abc", locationType := some "CITY", grossFrom := some 1,
    grossTo := some 2, maritalStatus := "SINGLE", numberOfChildren := "3",
    cost := some 5, currency := "USD", serviceType := "", validFromDate := "",
    validToDate := "", userNotes := "MercerLocation: US-NA" }

/-- Witness for claim C7 at the concrete supplied value 3 and a SINGLE row
whose count is "3". -/
theorem claim_C7_witness :
    ((collapseRow (some 3) none single3Row).numberOfChildren = "" ↔
      single3Row.numberOfChildren = "" ∨
      (∃ n, (some 3 : Option ℕ) = some n ∧ n ≠ 0 ∧ single3Row.maritalStatus = "SINGLE" ∧
        single3Row.numberOfChildren = toString n) ∨
      (∃ n, (none : Option ℕ) = some n ∧ n ≠ 0 ∧ single3Row.maritalStatus = "MARRIED" ∧
        single3Row.numberOfChildren = toString n)) ∧
    ((collapseRow (some 3) none single3Row).numberOfChildren = "" ∨
      (collapseRow (some 3) none single3Row).numberOfChildren
        = single3Row.numberOfChildren) ∧
    ((collapseRow (some 3) none single3Row).locationUuid = single3Row.locationUuid ∧
      (collapseRow (some 3) none single3Row).locationType = single3Row.locationType ∧
      (collapseRow (some 3) none single3Row).grossFrom = single3Row.grossFrom ∧
      (collapseRow (some 3) none single3Row).grossTo = single3Row.grossTo ∧
      (collapseRow (some 3) none single3Row).maritalStatus = single3Row.maritalStatus ∧
      (collapseRow (some 3) none single3Row).cost = single3Row.cost ∧
      (collapseRow (some 3) none single3Row).currency = single3Row.currency ∧
      (collapseRow (some 3) none single3Row).serviceType = single3Row.serviceType ∧
      (collapseRow (some 3) none single3Row).validFromDate = single3Row.validFromDate ∧
      (collapseRow (some 3) none single3Row).validToDate = single3Row.validToDate ∧
      (collapseRow (some 3) none single3Row).userNotes = single3Row.userNotes) ∧
    (final_output rawUS mapL1 none none false (some 3) none).length
      = (final_base rawUS mapL1 false).length :=
  claim_C7 (some 3) none single3Row rawUS mapL1 none none false

/-- Claim C8: `format_user_notes` (lines 205-212) yields the literal
"MercerLocation: GEC" for the key "XYNA"; for any other key of at least
two characters it inserts a hyphen after the first two characters; a
shorter key is appended verbatim; and every final row's userNotes is
this function of its location key. -/
theorem claim_C8 (k : String) (vfd vtd : Option String) (smc mmc : Option ℕ)
    (r : MergedRow) :
    (k = "XYNA" → format_user_notes k = "MercerLocation: GEC") ∧
    (∀ c0 c1 rest, k ≠ "XYNA" → k.toList = c0 :: c1 :: rest →
      format_user_notes k
        = "MercerLocation: " ++ String.mk [c0, c1] ++ "-" ++ String.mk rest) ∧
    (k ≠ "XYNA" → k.toList.length < 2 → format_user_notes k = "MercerLocation: " ++ k) ∧
    (collapseRow smc mmc (finalizeRow vfd vtd r)).userNotes
      = format_user_notes r.location_key := by
  refine ⟨?_, ?_, ?_, ?_⟩
  · intro h
    simp [format_user_notes, h]
  · intro c0 c1 rest hne hlist
    have hlen : 2 ≤ k.length := by
      have h0 : k.length = k.toList.length := rfl
      rw [h0, hlist]
      simp
    rw [format_user_notes, if_neg hne, if_pos hlen, hlist]
    rfl
  · intro hne hlen
    have h2 : ¬2 ≤ k.length := by
      have h0 : k.length = k.toList.length := rfl
      omega
    rw [format_user_notes, if_neg hne, if_neg h2]
  · rcases collapseRow_fields smc mmc (finalizeRow vfd vtd r) with
      ⟨_, _, _, _, _, _, _, _, _, _, hn⟩
    rw [hn]
    rfl

/-- Witness for claim C8 at the one-character key "U" (the short-key
branch) and a concrete merged row. -/
theorem claim_C8_witness :
    (("U" : String) = "XYNA" → format_user_notes "U" = "MercerLocation: GEC") ∧
    (∀ c0 c1 rest, ("U" : String) ≠ "XYNA" → ("U" : String).toList = c0 :: c1 :: rest →
      format_user_notes "U"
        = "MercerLocation: " ++ String.mk [c0, c1] ++ "-" ++ String.mk rest) ∧
    (("U" : String) ≠ "XYNA" → ("U" : String).toList.length < 2 →
      format_user_notes "U" = "MercerLocation: " ++ "U") ∧
    (collapseRow none none (finalizeRow none none trimWitRow)).userNotes
      = format_user_notes trimWitRow.location_key :=
  claim_C8 "U" none none none none trimWitRow

/-- Claim C9, amended.  The alias table holds TWELVE distinct categories
(Single, Single1-Single5, Married, Married1-Married5), not eleven;
every expanded record's family status is one of them, emitted by a
unique alias entry whose source column is present in the raw table,
and the record is built from exactly one raw row with its cost read
from that entry's source column. -/
theorem claim_C9 (t : RawTable) (e : LongRow) (he : e ∈ long_data t) :
    (family_status_mapping.map Prod.fst).length = 12 ∧
    (family_status_mapping.map Prod.fst).Nodup ∧
    e.family_status ∈ family_status_mapping.map Prod.fst ∧
    ∃ p ∈ family_status_mapping, p.1 = e.family_status ∧
      (strippedCols t).contains p.2 = true ∧
      (∀ q ∈ family_status_mapping, q.1 = e.family_status → q = p) ∧
      ∃ r ∈ t.rows, e = mkLongRow p.1 p.2 r := by
  rcases mem_long_data t e he with ⟨p, hp, hc, r, hr, rfl⟩
  have uniq : ∀ a ∈ family_status_mapping, ∀ b ∈ family_status_mapping,
      b.1 = a.1 → b = a := by decide
  refine ⟨by decide, by decide, List.mem_map.mpr ⟨p, hp, rfl⟩,
    p, hp, rfl, hc, ?_, r, hr, rfl⟩
  intro q hq hq1
  exact uniq p hp q hq hq1

/-- Claim C9 as stated is false in its cardinality: a raw table with all
twelve columns present expands one row into twelve records with twelve
pairwise distinct family-status values, so no 11-category set contains
them all. -/
theorem claim_C9_counterexample :
    ((long_data rawFull).map (fun e => e.family_status)).Nodup ∧
    ((long_data rawFull).map (fun e => e.family_status)).length = 12 := by
  decide

/-- The "Single" expansion of `rowFull`. -/
def longWitRow : LongRow := mkLongRow "Single" "Single" rowFull

/-- Witness for the amended claim C9 at the "Single" record of the
`rawFull` expansion. -/
theorem claim_C9_witness :
    longWitRow ∈ long_data rawFull ∧
    ((family_status_mapping.map Prod.fst).length = 12 ∧
    (family_status_mapping.map Prod.fst).Nodup ∧
    longWitRow.family_status ∈ family_status_mapping.map Prod.fst ∧
    ∃ p ∈ family_status_mapping, p.1 = longWitRow.family_status ∧
      (strippedCols rawFull).contains p.2 = true ∧
      (∀ q ∈ family_status_mapping, q.1 = longWitRow.family_status → q = p) ∧
      ∃ r ∈ rawFull.rows, longWitRow = mkLongRow p.1 p.2 r) :=
  ⟨by decide, claim_C9 rawFull longWitRow (by decide)⟩

/-- Claim C10: every row of the missing-locations output carries the
original raw `region` value (line 275 selects the `region` column, not
`region_clean`): a null region stays null there, while the
"NA"-substituted value lives only in the separate `region_clean`
column and inside the concatenated location key. -/
theorem claim_C10 (raw : RawTable) (mapping : MappingTable)
    (m : MissingRow) (hm : m ∈ missing_output raw mapping) :
    ∃ x ∈ missing_locations (merged_data raw mapping), m = missingRowOf x ∧
      ∃ r ∈ raw.rows, m.country = r.country ∧ m.region = r.region ∧
        x.region_clean = r.region.getD "NA" ∧
        m.location_key = r.country ++ r.region.getD "NA" ∧
        (r.region = none → m.region = none ∧ m.location_key = r.country ++ "NA") := by
  rw [missing_output, mem_sortByLe] at hm
  rcases List.mem_map.mp hm with ⟨x, hx, rfl⟩
  have hxd : x ∈ merged_data raw mapping := (List.mem_filter.mp hx).1
  rcases mem_merged_data raw mapping x hxd with ⟨k, hk, u, tt, rfl⟩
  rcases mem_keyed_data raw k hk with ⟨e, he, rfl⟩
  rcases mem_long_data raw e he with ⟨p, hp, hc, r, hr, rfl⟩
  refine ⟨mkMergedRow (addLocationKey (mkLongRow p.1 p.2 r)) u tt, hx, rfl,
    r, hr, rfl, rfl, rfl, rfl, ?_⟩
  intro h0
  refine ⟨h0, ?_⟩
  simp [missingRowOf, mkMergedRow, addLocationKey, mkLongRow, h0]

/-- The single missing-locations row of the `rawUS`/`mapXYNA` run. -/
def missWitRow : MissingRow :=
  { country := "US", region := none, location_key := "USNA",
    family_status := "Single", cost := some 100 }

/-- Witness for claim C10: the raw region was null, the key got the "NA"
substitute, and the missing output still carries the null region. -/
theorem claim_C10_witness :
    missWitRow ∈ missing_output rawUS mapXYNA ∧
    ∃ x ∈ missing_locations (merged_data rawUS mapXYNA), missWitRow = missingRowOf x ∧
      ∃ r ∈ rawUS.rows, missWitRow.country = r.country ∧ missWitRow.region = r.region ∧
        x.region_clean = r.region.getD "NA" ∧
        missWitRow.location_key = r.country ++ r.region.getD "NA" ∧
        (r.region = none → missWitRow.region = none ∧
          missWitRow.location_key = r.country ++ "NA") :=
  ⟨by decide, claim_C10 rawUS mapXYNA missWitRow (by decide)⟩
